import Mathlib

/-!
Shallow embedding of `astroplant_client/client.py` (the AstroPlant API client's
credential-lifecycle manager) and proofs about its guarded operations.

Modelling conventions:

* Timestamps are integer seconds since the epoch.  `datetime.datetime.now()`
  becomes an explicit `now : Int` argument; `datetime.datetime.fromtimestamp`
  of the token's integer `exp` claim is the identity on this representation.
* A Python `timedelta` produced by `a - b` normalises to
  `(days, seconds, microseconds)` with `0 ≤ seconds < 86400`; its `.seconds`
  attribute (used by the source, as opposed to `.total_seconds()`) is the
  seconds component after that normalisation: for a whole-second difference
  `t`, `.seconds = t % 86400` with the floor (Euclidean) modulus, which is
  what Lean's `%` on `Int` computes.
* JWT tokens are modelled as a raw string together with the integer `exp`
  claim that `jwt.decode(..., verify=False)` extracts from it (the only field
  the source reads).
* Python exceptions become an explicit `PyError` value carried in the result;
  because Python mutations performed before a `raise` persist, every stateful
  operation returns the (possibly mutated) state together with the optional
  error and the list of network calls it performed.
* `requests` responses for the two auth endpoints are modelled as a status
  code plus an optional parsed JSON object (`none` models a body that is not
  valid JSON, on which `result.json()` raises).  The JSON object carries the
  two keys the source inspects: `token` and `non_field_errors`.
* The network and the websocket are an `Env` of pure response functions, so
  that every operation is executable and every closed statement decidable.
-/

/-- The number of seconds before token expiration when a refresh is required.
Source constant `REFRESH_BEFORE_EXPIRY_IN_SECONDS = 60.0`; comparison of an
integer `timedelta.seconds` with the float `60.0` coincides with integer
comparison with `60`. -/
def REFRESH_BEFORE_EXPIRY_IN_SECONDS : Int := 60

/-- The number of seconds before token expiration where a refresh is still
attempted.  Source constant `REFRESH_BEFORE_EXPIRY_CUTOFF_IN_SECONDS = 3.0`. -/
def REFRESH_BEFORE_EXPIRY_CUTOFF_IN_SECONDS : Int := 3

/-- The `.seconds` attribute of the Python `timedelta` obtained from a
whole-second difference `t`: the seconds component of the normalised
`(days, seconds, microseconds)` triple, i.e. `t` modulo one day, in
`[0, 86400)` whatever the sign of `t`. -/
def tdSeconds (t : Int) : Int := t % 86400

/-- A JWT token: the raw string sent on the wire together with the integer
`exp` claim that `jwt.decode(self.token, verify=False)` yields. -/
structure Token where
  raw : String
  exp : Int
deriving DecidableEq, Repr

/-- The parsed JSON object of an auth-endpoint response, restricted to the two
keys the source reads: `'token' in data` / `data['token']` and
`'non_field_errors' in data` / `data['non_field_errors']`. -/
structure ApiBody where
  token : Option Token
  non_field_errors : Option String
deriving DecidableEq, Repr

/-- An HTTP response from one of the auth endpoints: the status code and the
parsed JSON body; `json = none` models a body that is not valid JSON, on
which `result.json()` raises a JSON decode error. -/
structure ApiResponse where
  status_code : Nat
  json : Option ApiBody
deriving DecidableEq, Repr

/-- A measurement object as consumed by `publish_measurement`; the source's
getter calls (`get_measurement_type()`, `get_peripheral().get_name()`, ...)
are modelled as record fields. -/
structure Measurement where
  measurement_type : String
  peripheral_name : String
  physical_quantity : String
  physical_unit : String
  date_time : String
  value : String
deriving DecidableEq, Repr

/-- The JSON envelope built by `publish_measurement` (the nested dict passed
to `json.dumps`); `json.dumps` itself, an injective serialisation, is not
modelled. -/
structure WsMessage where
  stream : String
  nonce : Nat
  payload_action : String
  measurement_type : String
  peripheral : String
  physical_quantity : String
  physical_unit : String
  date_time : String
  value : String
deriving DecidableEq, Repr

/-- A network interaction performed by the client, for counting and ordering
calls: the two auth endpoints, plain HTTP traffic, and a websocket send. -/
inductive NetCall where
  | obtain (serial secret : String)
  | verifyTok (token : Option String)
  | httpGet (url : String)
  | httpPost (url : String)
  | wsSend (msg : WsMessage)
deriving DecidableEq, Repr

/-- A Python exception raised by the modelled code. -/
inductive PyError where
  | authenticationError (msg : String)
  | tokenRefreshError (msg : String)
  | nameError (name : String)
  | typeError
  | attributeError (name : String)
  | jsonDecodeError
  | webSocketError
deriving DecidableEq, Repr

/-- Equality of `Except` results is decidable when both components have
decidable equality (needed to evaluate closed statements by `decide`). -/
instance {ε α : Type} [DecidableEq ε] [DecidableEq α] : DecidableEq (Except ε α)
  | Except.error a, Except.error b =>
    if h : a = b then isTrue (congrArg Except.error h)
    else isFalse (fun hc => h (Except.error.inj hc))
  | Except.error _, Except.ok _ => isFalse (fun hc => Except.noConfusion hc)
  | Except.ok _, Except.error _ => isFalse (fun hc => Except.noConfusion hc)
  | Except.ok a, Except.ok b =>
    if h : a = b then isTrue (congrArg Except.ok h)
    else isFalse (fun hc => h (Except.ok.inj hc))

/-- The mutable state of a `Client` object.  `auth_serial` / `auth_secret` are
`none` until `authenticate` first assigns them (`__init__` does not create
these attributes; reading them then raises `AttributeError`).  `token_data`
records the decoded payload, of which only the `exp` claim is ever read.
`auth_header` is the session's `Authorization` header, installed by
`_process_token` (the constant `Content-Type` header is not modelled). -/
structure ClientState where
  root_url : String
  websocket_url : String
  ws_nonce : Nat
  token : Option String
  token_data : Option Int
  token_exp : Option Int
  auth_serial : Option String
  auth_secret : Option String
  auth_header : Option String
deriving DecidableEq, Repr

/-- The environment: deterministic responses of the external collaborators.
`obtain` answers `POST auth-token-obtain/` for a username/password pair,
`verifyTok` answers `POST auth-token-verify/`, `wsSendOk` tells whether
`self.ws.send` succeeds on a given envelope. -/
structure Env where
  obtain : String → String → ApiResponse
  verifyTok : Option String → ApiResponse
  wsSendOk : WsMessage → Bool

/-- The result of one (possibly raising) method call: the state at return or
at raise time, the raised exception if any, and the network calls made. -/
structure StepResult where
  state : ClientState
  err : Option PyError
  calls : List NetCall
deriving DecidableEq, Repr

/-- `Client.__init__(root_url, websocket_url)`: nonce 0, no token, no decoded
data, no expiry; `auth_serial`/`auth_secret` attributes do not exist yet.
(The `requests.Session`, the `websocket.WebSocket` object and the
`ConfigurationPath` helper carry no credential state and are not modelled.) -/
def clientInit (root_url websocket_url : String) : ClientState :=
  { root_url := root_url
    websocket_url := websocket_url
    ws_nonce := 0
    token := none
    token_data := none
    token_exp := none
    auth_serial := none
    auth_secret := none
    auth_header := none }

/-- `Client._process_token(token)`: store the raw token, its decoded payload,
the expiry from the `exp` claim, and install the `Authorization: JWT <token>`
session header. -/
def _process_token (s : ClientState) (tok : Token) : ClientState :=
  { s with
    token := some tok.raw
    token_data := some tok.exp
    token_exp := some tok.exp
    auth_header := some ("JWT " ++ tok.raw) }

/-- The `else` branch of `Client.authenticate`: raise `AuthenticationError`,
with the server-reported `non_field_errors` in the message when present. -/
def authenticateFailure (s : ClientState) (data : ApiBody) (calls : List NetCall) :
    StepResult :=
  match data.non_field_errors with
  | some e => ⟨s, some (PyError.authenticationError ("API error: " ++ e)), calls⟩
  | none => ⟨s, some (PyError.authenticationError "Could not authenticate."), calls⟩

/-- `Client.authenticate(serial, secret)`: first store the serial and secret
(so the client can re-authenticate later), then POST to `auth-token-obtain/`;
on `status_code == 200 and 'token' in data` process the token, otherwise
raise `AuthenticationError`.  A body that is not valid JSON makes
`result.json()` raise before the status is inspected. -/
def authenticate (env : Env) (s : ClientState) (serial secret : String) : StepResult :=
  let s1 := { s with auth_serial := some serial, auth_secret := some secret }
  let result := env.obtain serial secret
  let calls := [NetCall.obtain serial secret]
  match result.json with
  | none => ⟨s1, some PyError.jsonDecodeError, calls⟩
  | some data =>
    match data.token with
    | some tok =>
      if result.status_code = 200 then ⟨_process_token s1 tok, none, calls⟩
      else authenticateFailure s1 data calls
    | none => authenticateFailure s1 data calls

/-- `Client._refresh_authentication()`: the body's first statement is
`payload = {'token': token}`, but the name `token` is bound neither in the
function (whose only parameter is `self`) nor at module level — the attribute
is spelled `self.token` elsewhere — so the call raises `NameError` before any
request is made; the POST to `auth-token-verify/` and the remaining lines
(which also test `'token' in result` on the response object rather than on
the parsed body) are unreachable. -/
def _refresh_authentication (s : ClientState) : StepResult :=
  ⟨s, some (PyError.nameError "token"), []⟩

/-- `Client._needs_reauthentication()`: `(self.token_exp - now).seconds` is
compared with `REFRESH_BEFORE_EXPIRY_IN_SECONDS`.  When `token_exp` is still
`None` (no authentication has ever succeeded), `None - datetime.now()` raises
`TypeError`. -/
def _needs_reauthentication (s : ClientState) (now : Int) : Except PyError Bool :=
  match s.token_exp with
  | none => Except.error PyError.typeError
  | some exp => Except.ok (tdSeconds (exp - now) < REFRESH_BEFORE_EXPIRY_IN_SECONDS)

/-- `Client._can_refresh()`: `(self.token_exp - now).seconds` compared with
`REFRESH_BEFORE_EXPIRY_CUTOFF_IN_SECONDS`; `TypeError` when `token_exp` is
`None`, as above. -/
def _can_refresh (s : ClientState) (now : Int) : Except PyError Bool :=
  match s.token_exp with
  | none => Except.error PyError.typeError
  | some exp => Except.ok (tdSeconds (exp - now) > REFRESH_BEFORE_EXPIRY_CUTOFF_IN_SECONDS)

/-- The tail of `Client._reauthenticate()`:
`self.authenticate(self.auth_serial, self.auth_secret)`.  Reading a never
assigned attribute raises `AttributeError`. -/
def reauthenticateObtain (env : Env) (s : ClientState) (calls : List NetCall) :
    StepResult :=
  match s.auth_serial, s.auth_secret with
  | some serial, some secret =>
    let r := authenticate env s serial secret
    ⟨r.state, r.err, calls ++ r.calls⟩
  | none, _ => ⟨s, some (PyError.attributeError "auth_serial"), calls⟩
  | some _, none => ⟨s, some (PyError.attributeError "auth_secret"), calls⟩

/-- `Client._reauthenticate()`: if `_can_refresh()`, try
`_refresh_authentication()` and return on success; a bare `except: pass`
swallows any exception it raises.  Then (cannot refresh, or refresh failed)
fall through to `authenticate(self.auth_serial, self.auth_secret)`. -/
def _reauthenticate (env : Env) (s : ClientState) (now : Int) : StepResult :=
  match _can_refresh s now with
  | Except.error e => ⟨s, some e, []⟩
  | Except.ok true =>
    let r := _refresh_authentication s
    match r.err with
    | none => r
    | some _ => reauthenticateObtain env r.state r.calls
  | Except.ok false => reauthenticateObtain env s []

/-- The `authentication_required` decorator: run `_needs_reauthentication`;
when it answers `True`, run `_reauthenticate` and, only if that did not
raise, run the wrapped function on the resulting state; when it answers
`False`, run the wrapped function directly; exceptions propagate and skip
the wrapped function. -/
def authentication_required (env : Env) (now : Int)
    (func : ClientState → StepResult) (s : ClientState) : StepResult :=
  match _needs_reauthentication s now with
  | Except.error e => ⟨s, some e, []⟩
  | Except.ok true =>
    let r := _reauthenticate env s now
    match r.err with
    | some _ => r
    | none =>
      let b := func r.state
      ⟨b.state, b.err, r.calls ++ b.calls⟩
  | Except.ok false => func s

/-- `Client.get(relative_url)`, wrapped in `authentication_required`: a GET to
`self.root_url + relative_url` via the session.  The JSON decoding of the
response text (`response.body = json.loads(response.text)`) only shapes the
returned response object, never the client state, and is not modelled. -/
def get (env : Env) (s : ClientState) (now : Int) (relative_url : String) : StepResult :=
  authentication_required env now
    (fun s1 => ⟨s1, none, [NetCall.httpGet (s1.root_url ++ relative_url)]⟩) s

/-- `Client.post(relative_url, payload)`, wrapped in `authentication_required`:
a POST to `self.root_url + relative_url`; response decoding as in `get`. -/
def post (env : Env) (s : ClientState) (now : Int) (relative_url : String) : StepResult :=
  authentication_required env now
    (fun s1 => ⟨s1, none, [NetCall.httpPost (s1.root_url ++ relative_url)]⟩) s

/-- `Client._verify_token(token)`: POST the token to `auth-token-verify/` and
report whether the status code is 200. -/
def _verify_token (env : Env) (tok : Option String) : Bool :=
  (env.verifyTok tok).status_code = 200

/-- `Client.is_authenticated(verify=False)`: without `verify`, compare
`(self.token_exp - now).seconds` with `0` — raising `TypeError` when
`token_exp` is `None`; with `verify`, ask the API via `_verify_token`. -/
def is_authenticated (env : Env) (s : ClientState) (verify : Bool) (now : Int) :
    Except PyError Bool :=
  if !verify then
    match s.token_exp with
    | none => Except.error PyError.typeError
    | some exp => Except.ok (tdSeconds (exp - now) > 0)
  else
    Except.ok (_verify_token env s.token)

/-- The envelope dict built by `publish_measurement` for the current nonce. -/
def buildMessage (nonce : Nat) (m : Measurement) : WsMessage :=
  { stream := "publish-measurement"
    nonce := nonce
    payload_action := "publish"
    measurement_type := m.measurement_type
    peripheral := m.peripheral_name
    physical_quantity := m.physical_quantity
    physical_unit := m.physical_unit
    date_time := m.date_time ++ "Z"
    value := m.value }

/-- `Client.publish_measurement(measurement)` — note: NOT wrapped in
`authentication_required` in the source.  Builds the envelope with the
current `ws_nonce`, executes `self.ws_nonce += 1`, and only then calls
`self.ws.send(json.dumps(message))`; a failing send raises after the
increment has already happened.  The attempted send is recorded in the call
list whether or not it succeeds. -/
def publish_measurement (env : Env) (s : ClientState) (m : Measurement) : StepResult :=
  let message := buildMessage s.ws_nonce m
  let s1 := { s with ws_nonce := s.ws_nonce + 1 }
  ⟨s1, if env.wsSendOk message then none else some PyError.webSocketError,
    [NetCall.wsSend message]⟩

/-- Whether a network call is a full authentication (`auth-token-obtain/`). -/
def NetCall.isObtain : NetCall → Bool
  | NetCall.obtain _ _ => true
  | _ => false

/-- Whether a network call is a token verify/refresh (`auth-token-verify/`). -/
def NetCall.isVerify : NetCall → Bool
  | NetCall.verifyTok _ => true
  | _ => false

/-- Number of `auth-token-obtain/` calls in a trace. -/
def countObtain (tr : List NetCall) : Nat := (tr.filter NetCall.isObtain).length

/-- Number of `auth-token-verify/` calls in a trace. -/
def countVerify (tr : List NetCall) : Nat := (tr.filter NetCall.isVerify).length

/-- The Credential portion of the session state: raw token, decoded payload,
expiry, and the session's `Authorization` header. -/
def credFields (s : ClientState) : Option String × Option Int × Option Int × Option String :=
  (s.token, s.token_data, s.token_exp, s.auth_header)

/-- Whether a raised-or-absent error is an `AuthenticationError`. -/
def isAuthenticationError : Option PyError → Bool
  | some (PyError.authenticationError _) => true
  | _ => false

/-- A token as returned by a healthy obtain/verify endpoint, expiring at 5000. -/
def tok1 : Token := ⟨"tokNew", 5000⟩

/-- A healthy environment: both auth endpoints answer 200 with a token and the
websocket send succeeds. -/
def envOk : Env :=
  { obtain := fun _ _ => ⟨200, some ⟨some tok1, none⟩⟩
    verifyTok := fun _ => ⟨200, some ⟨some tok1, none⟩⟩
    wsSendOk := fun _ => true }

/-- A freshly constructed client on which `authenticate` was never called. -/
def sFresh : ClientState := clientInit "https://api.example/" "wss://ws.example/"

/-- A session that authenticated in the past; its token expired at 990 (ten
seconds before the reference instant 1000 used in the concrete statements). -/
def sExpired : ClientState :=
  { sFresh with
    token := some "tokOld", token_data := some 990, token_exp := some 990,
    auth_serial := some "kit-1", auth_secret := some "s3cr3t",
    auth_header := some "JWT tokOld" }

/-- The same session with a token expiring at 1030: thirty seconds of
remaining lifetime at instant 1000, strictly between the cutoff and the
margin. -/
def sSoon : ClientState := { sExpired with token_data := some 1030, token_exp := some 1030 }

/-- A concrete measurement for the publish-path statements. -/
def meas1 : Measurement :=
  ⟨"Temperature", "dht22", "temperature", "degrees-celsius", "2020-01-01T00:00:00", "21.5"⟩

/-- An environment whose websocket send fails (`ws.send` raises). -/
def envSendFail : Env := { envOk with wsSendOk := fun _ => false }

/-- An environment whose obtain endpoint answers 500 with a body that is not
valid JSON. -/
def envObtainJunk : Env := { envOk with obtain := fun _ _ => ⟨500, none⟩ }

/-- An environment whose obtain endpoint rejects the identity: 400 with a JSON
body carrying `non_field_errors` and no token. -/
def envObtain400 : Env :=
  { envOk with
    obtain := fun _ _ => ⟨400, some ⟨none, some "Unable to log in with provided credentials."⟩⟩ }

/-- Helper: the raise in the failure branch of `authenticate` leaves the state
it was given untouched. -/
theorem authenticateFailure_state (s : ClientState) (data : ApiBody) (calls : List NetCall) :
    (authenticateFailure s data calls).state = s := by
  unfold authenticateFailure
  cases data.non_field_errors <;> rfl

/-- Helper: the failure branch of `authenticate` raises an
`AuthenticationError` whichever message it picks. -/
theorem authenticateFailure_err_isAuth (s : ClientState) (data : ApiBody) (calls : List NetCall) :
    isAuthenticationError (authenticateFailure s data calls).err = true := by
  unfold authenticateFailure
  cases data.non_field_errors <;> rfl

/-- Helper: the failure branch of `authenticate` adds no network calls. -/
theorem authenticateFailure_calls (s : ClientState) (data : ApiBody) (calls : List NetCall) :
    (authenticateFailure s data calls).calls = calls := by
  unfold authenticateFailure
  cases data.non_field_errors <;> rfl

/-- Helper: every run of `authenticate` performs exactly the one POST to
`auth-token-obtain/`, whatever the outcome. -/
theorem authenticate_calls (env : Env) (s : ClientState) (serial secret : String) :
    (authenticate env s serial secret).calls = [NetCall.obtain serial secret] := by
  rcases hj : (env.obtain serial secret).json with _ | data
  · simp [authenticate, hj]
  · rcases htk : data.token with _ | tok
    · simp [authenticate, hj, htk, authenticateFailure_calls]
    · by_cases hst : (env.obtain serial secret).status_code = 200 <;>
        simp [authenticate, hj, htk, hst, authenticateFailure_calls]

/-- Helper: the fallback tail of `_reauthenticate` adds no verify calls to the
trace it is given (its only network activity is the obtain inside
`authenticate`, when the stored identity exists). -/
theorem countVerify_reauthenticateObtain (env : Env) (s : ClientState) (cs : List NetCall) :
    countVerify (reauthenticateObtain env s cs).calls = countVerify cs := by
  unfold reauthenticateObtain
  rcases hs : s.auth_serial with _ | serial
  · rfl
  · rcases hc : s.auth_secret with _ | secret
    · rfl
    · simp [authenticate_calls, countVerify, NetCall.isVerify, List.filter_append]

/-- Claim C1 (code bug): the guard's pre-call check does not detect an already
expired Credential.  At instant 1000 the stored expiry 990 lies ten seconds in
the past, yet `_needs_reauthentication` answers `false` — the normalised
`timedelta.seconds` of the negative difference is 86390, not below the
60-second margin — and the guarded `get` performs its HTTP request with the
expired Credential still installed, renewing nothing and raising nothing. -/
theorem C1_expired_credential_undetected :
    sExpired.token_exp = some 990 ∧ (990 : Int) - 1000 ≤ 0 ∧
    tdSeconds (990 - 1000) = 86390 ∧
    _needs_reauthentication sExpired 1000 = Except.ok false ∧
    get envOk sExpired 1000 "kits" =
      ⟨sExpired, none, [NetCall.httpGet "https://api.example/kits"]⟩ := by decide

/-- Claim C2 counterexample: `publish_measurement` is not routed through the
guard.  On a freshly constructed session — where evaluating the guard's
staleness check would raise `TypeError`, as it does for `get` and `post` —
`publish_measurement` succeeds, performs no obtain and no verify call, and
hands the envelope to the websocket anyway. -/
theorem C2_counterexample :
    (publish_measurement envOk sFresh meas1).err = none ∧
    countObtain (publish_measurement envOk sFresh meas1).calls = 0 ∧
    countVerify (publish_measurement envOk sFresh meas1).calls = 0 ∧
    _needs_reauthentication sFresh 1000 = Except.error PyError.typeError := by decide

/-- Claim C2 as amended: `publish_measurement` is not a guarded operation.  For
every environment, session state and measurement it evaluates no part of the
Credential Guard policy: it performs no obtain and no verify call and leaves
the whole Credential portion of the state unchanged. -/
theorem C2_publish_not_guarded (env : Env) (s : ClientState) (m : Measurement) :
    countObtain (publish_measurement env s m).calls = 0 ∧
    countVerify (publish_measurement env s m).calls = 0 ∧
    credFields (publish_measurement env s m).state = credFields s := ⟨rfl, rfl, rfl⟩

/-- Claim C3 (code bug): with the Credential already expired — remaining
lifetime −10 s, below the refresh cutoff — a guarded call performs zero obtain
calls rather than exactly one: the staleness check misjudges the expired token
(`timedelta.seconds` of a negative difference) and never triggers
re-authentication at all. -/
theorem C3_expired_zero_obtain :
    sExpired.token_exp = some 990 ∧
    (990 : Int) - 1000 ≤ REFRESH_BEFORE_EXPIRY_CUTOFF_IN_SECONDS ∧
    countObtain (get envOk sExpired 1000 "kits").calls = 0 ∧
    (get envOk sExpired 1000 "kits").err = none := by decide

/-- Claim C4 (code bug): `_refresh_authentication` can neither raise
`TokenRefreshError` nor install a refreshed token: on every state it raises
`NameError` (the undefined name `token` in its first statement) before
reaching the verify endpoint, so a guarded call's refresh path never performs
a verify call either. -/
theorem C4_refresh_always_nameerror (env : Env) (s : ClientState) (now : Int) :
    _refresh_authentication s = ⟨s, some (PyError.nameError "token"), []⟩ ∧
    countVerify (_reauthenticate env s now).calls = 0 := by
  refine ⟨rfl, ?_⟩
  unfold _reauthenticate
  rcases h : _can_refresh s now with e | b
  · simp only [h]
    rfl
  · cases b
    · simp only [h]
      exact (countVerify_reauthenticateObtain env s []).trans rfl
    · simp only [h, _refresh_authentication]
      exact (countVerify_reauthenticateObtain env s []).trans rfl

/-- Claim C5 counterexample: the sequence number is incremented before the
envelope is handed to the streaming channel.  Starting from nonce 0, a publish
whose websocket send fails still leaves the nonce at 1. -/
theorem C5_counterexample :
    sFresh.ws_nonce = 0 ∧
    (publish_measurement envSendFail sFresh meas1).err = some PyError.webSocketError ∧
    (publish_measurement envSendFail sFresh meas1).state.ws_nonce = 1 := by decide

/-- Claim C5 as amended: the sequence number starts at 0 and is incremented by
exactly 1 per publish attempt, with the increment happening before the
envelope is handed to the streaming channel; the envelope carries the
pre-increment nonce, and a failed send leaves the number incremented. -/
theorem C5_nonce_per_attempt (env : Env) (s : ClientState) (m : Measurement) (r w : String) :
    (clientInit r w).ws_nonce = 0 ∧
    (publish_measurement env s m).state.ws_nonce = s.ws_nonce + 1 ∧
    (publish_measurement env s m).calls = [NetCall.wsSend (buildMessage s.ws_nonce m)] :=
  ⟨rfl, rfl, rfl⟩

/-- Claim C6 (code bug): with thirty seconds of remaining lifetime — strictly
between the refresh cutoff and the refresh margin — a guarded call performs
zero verify calls and one obtain call instead of one refresh and zero obtains:
`_refresh_authentication` raises `NameError` before contacting the verify
endpoint, the bare `except` swallows it, and the guard falls back to full
authentication. -/
theorem C6_no_refresh_call :
    sSoon.token_exp = some 1030 ∧
    REFRESH_BEFORE_EXPIRY_CUTOFF_IN_SECONDS < (1030 : Int) - 1000 ∧
    (1030 : Int) - 1000 < REFRESH_BEFORE_EXPIRY_IN_SECONDS ∧
    countVerify (get envOk sSoon 1000 "kits").calls = 0 ∧
    countObtain (get envOk sSoon 1000 "kits").calls = 1 ∧
    (get envOk sSoon 1000 "kits").err = none := by decide

/-- Claim C7 counterexample: on a session with no Credential, a guarded `get`
does not perform full authentication: it raises `TypeError` inside the guard's
staleness check (`None` expiry minus the current time) and performs no network
call at all. -/
theorem C7_counterexample :
    get envOk sFresh 1000 "kits" = ⟨sFresh, some PyError.typeError, []⟩ := by decide

/-- Claim C7 as amended: for every session in which no Credential exists,
invoking a guarded operation fails in the guard's staleness check itself — it
raises `TypeError`, performs no network call, and leaves the state unchanged
(full authentication can only follow an explicit `authenticate` call). -/
theorem C7_fresh_guard_raises (env : Env) (now : Int) (r w u : String) :
    get env (clientInit r w) now u = ⟨clientInit r w, some PyError.typeError, []⟩ := rfl

/-- Claim C8 counterexample: an obtain-endpoint failure whose body is not
valid JSON (status 500, non-JSON body) makes `authenticate` raise the JSON
decode error of `result.json()`, not an `AuthenticationError` — though the
Credential state is indeed left unchanged. -/
theorem C8_counterexample :
    (authenticate envObtainJunk sExpired "kit-1" "s3cr3t").err = some PyError.jsonDecodeError ∧
    isAuthenticationError (authenticate envObtainJunk sExpired "kit-1" "s3cr3t").err = false ∧
    credFields (authenticate envObtainJunk sExpired "kit-1" "s3cr3t").state =
      credFields sExpired := by decide

/-- Claim C8 as amended: for every call to `authenticate` that fails because
the endpoint returns a JSON body with a non-success status or without a token,
an `AuthenticationError` is raised to the caller and the session's Credential
state (token, decoded token data, expiry, Authorization header) is left
exactly as it was before the call. -/
theorem C8_auth_failure_authentication_error (env : Env) (s : ClientState)
    (serial secret : String) (data : ApiBody)
    (hjson : (env.obtain serial secret).json = some data)
    (hfail : (env.obtain serial secret).status_code ≠ 200 ∨ data.token = none) :
    isAuthenticationError (authenticate env s serial secret).err = true ∧
    credFields (authenticate env s serial secret).state = credFields s := by
  simp only [authenticate, hjson]
  rcases htk : data.token with _ | tok
  · simp [htk, authenticateFailure_err_isAuth, authenticateFailure_state, credFields]
  · have hst : (env.obtain serial secret).status_code ≠ 200 := by
      rcases hfail with h | h
      · exact h
      · rw [htk] at h; exact absurd h (by simp)
    simp [htk, hst, authenticateFailure_err_isAuth, authenticateFailure_state, credFields]

/-- Witness for the amended claim C8 at a concrete rejected identity: the
endpoint answers 400 with `non_field_errors` and no token; `authenticate`
raises an `AuthenticationError` and the fresh session's Credential fields are
untouched. -/
theorem C8_auth_failure_authentication_error_witness :
    isAuthenticationError (authenticate envObtain400 sFresh "kit-1" "wrong").err = true ∧
    credFields (authenticate envObtain400 sFresh "kit-1" "wrong").state = credFields sFresh :=
  C8_auth_failure_authentication_error envObtain400 sFresh "kit-1" "wrong"
    ⟨none, some "Unable to log in with provided credentials."⟩ rfl (Or.inr rfl)

/-- Claim C9 (confirmed): on a freshly constructed client that has never
authenticated, `is_authenticated(verify=False)` does not return a boolean: the
local expiry comparison is evaluated against the absent Credential
(`token_exp` is `None`) and raises `TypeError`. -/
theorem C9_fresh_is_authenticated_raises (env : Env) (now : Int) (r w : String) :
    is_authenticated env (clientInit r w) false now = Except.error PyError.typeError := rfl

/-- Claim C10 (confirmed): `authenticate(serial, secret)` stores the given
serial and secret before the network round-trip, so whatever the outcome —
success, `AuthenticationError`, or a decode error — the session's stored
Identity equals the most recent arguments, and the Guard's fallback path will
use them for future full re-authentications. -/
theorem C10_identity_replaced_before_request (env : Env) (s : ClientState)
    (serial secret : String) :
    (authenticate env s serial secret).state.auth_serial = some serial ∧
    (authenticate env s serial secret).state.auth_secret = some secret := by
  rcases hj : (env.obtain serial secret).json with _ | data
  · simp [authenticate, hj]
  · rcases htk : data.token with _ | tok
    · simp [authenticate, hj, htk, authenticateFailure_state]
    · by_cases hst : (env.obtain serial secret).status_code = 200
      · simp [authenticate, hj, htk, hst, _process_token]
      · simp [authenticate, hj, htk, hst, authenticateFailure_state]
